import Mathlib

/-!
Verification of the BigCache core (userfaultfd_bigcache) against its
natural-language specification.

The C sources are shallowly embedded:
* machine integers become `Nat`; where C truncation matters (`uint32_t`,
  `uint64_t`/`size_t` stores) an explicit `% 2^32` / `% 2^64` is applied;
* byte buffers (the mmapped bundle, file contents) become a single `Nat`
  in little-endian base-256: the byte at offset `i` of buffer `b` is
  `b / 256^i % 256`, and `seg b off k` is the `k`-byte sub-buffer at
  offset `off`.  Buffer lengths are carried separately, exactly as C
  carries a pointer and a size;
* C strings / paths become `List Nat` (their bytes, no interior NUL);
* pointers into the mapped bundle are represented by their byte offset
  from `mapped_data`, so `bigcache_lookup` returns `Option Nat`;
* fallible operations return `Option`/`Except`, out-parameters become
  components of the returned tuple, and functions that mutate a context
  return the updated context;
* the host environment (filesystem, ioctl results) is passed in as
  explicit data: a filesystem is a map from path to optional contents,
  and the `UFFDIO_COPY` ioctl outcome is an `Option Nat` errno oracle.
-/

set_option maxRecDepth 100000
set_option maxHeartbeats 40000000
set_option exponentiation.threshold 10000000

namespace BigCache

/-- `PAGE_SIZE` from bigcache.h. -/
def PAGE_SIZE : Nat := 4096

/-- `BIGCACHE_MAGIC` from bigcache.h. -/
def BIGCACHE_MAGIC : Nat := 0x42494743

/-- `BIGCACHE_VERSION` from bigcache.h. -/
def BIGCACHE_VERSION : Nat := 1

/-- `MAX_FILES` from bigcache.h. -/
def MAX_FILES : Nat := 4096

/-- The 64-bit value of `~(PAGE_SIZE - 1)`: `PAGE_SIZE - 1` is the int
`4095`, whose complement sign-extends to this mask on `uint64_t`/`size_t`. -/
def PAGE_MASK64 : Nat := 0xFFFFFFFFFFFFF000

/-- `offset & ~(PAGE_SIZE - 1)` on a `uint64_t`, as used throughout the
sources for page alignment. -/
def pageAlign (off : Nat) : Nat := off &&& PAGE_MASK64

/-- `(x + PAGE_SIZE - 1) & ~(PAGE_SIZE - 1)` on `size_t`, the packer's
round-up to the next 4 KiB boundary. -/
def alignUp4096 (x : Nat) : Nat := (x + 4095) &&& PAGE_MASK64

/-! ### Byte buffers as little-endian naturals -/

/-- The `k`-byte sub-buffer of `b` at byte offset `off`. -/
def seg (b off k : Nat) : Nat := b / 256 ^ off % 256 ^ k

/-- Concatenation: the buffer whose first `la` bytes are `a` and whose
remaining bytes are `b`. -/
def catB (a la b : Nat) : Nat := a % 256 ^ la + b * 256 ^ la

/-- A list of consecutive `chunkLen`-byte buffers laid out as one buffer
(chunk `i` at offset `chunkLen * i`). -/
def chunksB (chunkLen : Nat) : List Nat → Nat
  | [] => 0
  | x :: xs => catB x chunkLen (chunksB chunkLen xs)

/-- Overwrite the single byte at `off` with `v` (a `*(uint8_t*)p = v`). -/
def setByte (b off v : Nat) : Nat :=
  b % 256 ^ off + v % 256 * 256 ^ off + b / 256 ^ (off + 1) * 256 ^ (off + 1)

/-- Overwrite the packed `uint32_t` at byte offset `off` with `v`
(the CRC back-patch `header->checksum = ...`). -/
def patchU32 (b off v : Nat) : Nat :=
  b % 256 ^ off + v % 256 ^ 4 * 256 ^ off + b / 256 ^ (off + 4) * 256 ^ (off + 4)

/-- A byte list written out as a buffer (first element at offset 0). -/
def listToBytes : List Nat → Nat
  | [] => 0
  | x :: xs => x % 256 + 256 * listToBytes xs

/-- The C string stored at the start of buffer `b` (bytes up to the
first NUL), bounded by `fuel` bytes. -/
def parseCStr : Nat → Nat → List Nat
  | _, 0 => []
  | b, fuel + 1 => if b % 256 = 0 then [] else b % 256 :: parseCStr (b / 256) fuel

/-! ### CRC32 (bigcache_index.c, `init_crc32_table` / `bigcache_crc32`)

The C code precomputes `crc32_table[i]` as eight rounds of
`c = (c >> 1) ^ ((c & 1) ? 0xEDB88320 : 0)` starting from `c = i`, then
folds `crc = crc32_table[(crc ^ buf[i]) & 0xFF] ^ (crc >> 8)` over the
buffer with init `0xFFFFFFFF` and a final xor with `0xFFFFFFFF`.

`crc32_entry i` is the table row; `crc32_table_packed` is the whole
table packed four bytes per row into one constant (certified against
`crc32_entry` by `crc32_table_packed_spec` below), which the executable
update consults; `crcLoop` is the byte loop exactly as in the source;
`crcFast` recomputes the same fold by halving (certified by
`crcFast_spec`), so that proofs by evaluation stay within the kernel's
stack; `bigcache_crc32 b len` takes the buffer and its byte length
(pointer plus length, as in C) and `bigcache_crc32_spec` states it is
exactly the source's loop. -/

/-- One row of the CRC32 table: eight shift/xor rounds applied to `i`. -/
def crc32_entry (i : Nat) : Nat :=
  (List.range 8).foldl
    (fun c _ => if c % 2 = 1 then (c / 2) ^^^ 0xEDB88320 else c / 2) i

/-- The 256 table rows packed little-endian, four bytes per row. -/
def crc32_table_packed : Nat := 191781931866985559621651535760735696673856346713887891597305215034209910220001862487342664719235424489376241530245261416506414575980417952467156150107317449804134056257716516419112328720131160031456481696823125446157373092479201248890302123815375087579814780306302465238014574686590130429322061672822152808302584144548153239526865349163683956765968513272069020595772598256391810863039343892818777390988989484387641140032565380688427043259765038805963005205961532183550801462253286244137065761003679520439085992511812747153023950988237051482297475963397445683294857871623710491443494995887883262049609400235784616301914504614852100915093667425320505522569448617573499542922012206538552994923376999879042244179649278486539688567765080810044274289792776818305348943521622626710878290771699129542630700634428853941830696095884539637866540751870989118613898226745049792152623499445281592614081205541985653143393913751853573884386717370504757525450126884015918318526676861728753890367452704650663987939986219768247293259525516712103938189788961727671665583423846301460611946049409459047739687307696235742781609353855728368690241567495209394945831800246045226053014789794812648147087782064443448838513940732911263420963033260564074243893655912557635729647410566500980880275296686932139551470048159522442188851388406016990108609539131275206406529452392139356697170450224378375281123940131103967815428442222478921241843802992958207175757710557124203243943652857525217714700783116853765558053940146905689184430570662124197438683992896538427266983469967391681636142474704834532560212491641513769109191453119295486434232583946536159882324212284713050838488706228253289835044432504923553683244983660554148621837806481305441008673570324340892415493266799132762194172577680912505944139402575723473831901219655706623634449032441308172682686423497289006274475542693850888413509354855109888442809400614039731828034881315553093408757249612302925815547436960120920974901163960048042280802561087650605423221541518940157925281902321885507580234243366499257305095335897959299004866716736669236430206354864789374467091307116826402984124475471120986056028650311289461216452641219222976814212486281160700097480526596597474635034066400713689500662174516288603424994162219769371242282901951357062625582355266271642761008964271320703341335927815387129432557369825457457303399345465981718607329281771814792602549895867734643022520164827992332349645685502120161683551602918412611264947206183976960

/-- One step of the table-driven loop:
`crc = crc32_table[(crc ^ buf[i]) & 0xFF] ^ (crc >> 8)`, reading the row
from the packed table. -/
def crc32_update (crc b : Nat) : Nat :=
  (crc32_table_packed / 256 ^ (4 * ((crc ^^^ b) % 256)) % 2 ^ 32) ^^^ crc / 256

/-- The byte loop of `bigcache_crc32` over `n` bytes of buffer `b`,
carried accumulator `crc`. -/
def crcLoop : Nat → Nat → Nat → Nat
  | _, crc, 0 => crc
  | b, crc, n + 1 => crcLoop (b / 256) (crc32_update crc (b % 256)) n

/-- Strict application: forces `x` to a numeral before calling `f`
(evaluation plumbing with no mathematical content). -/
def seqN (x : Nat) (f : Nat → Nat) : Nat :=
  match x with
  | 0 => f 0
  | n + 1 => f (n + 1)

/-- `crcLoop` recomputed by halving the byte count (`crcFast_spec`
proves it equal); this keeps kernel evaluation shallow. -/
def crcFast : Nat → Nat → Nat → Nat → Nat
  | 0, b, crc, n => crcLoop b crc n
  | _ + 1, _, crc, 0 => crc
  | _ + 1, b, crc, 1 => crc32_update crc (b % 256)
  | fuel + 1, b, crc, n + 2 =>
    let h := (n + 2) / 2
    seqN (crcFast fuel b crc h) (fun c => crcFast fuel (b / 256 ^ h) c (n + 2 - h))

/-- `bigcache_crc32` over the `len` bytes of buffer `b`:
init `0xFFFFFFFF`, table-driven update per byte, final xor.
(`bigcache_crc32_spec`: this is the source's linear loop.) -/
def bigcache_crc32 (b len : Nat) : Nat :=
  crcFast 64 b 0xFFFFFFFF len ^^^ 0xFFFFFFFF

/-! ### FNV-1a hash (bigcache_index.c, `hash_fnv1a`) -/

/-- `hash_fnv1a`: absorb the path bytes, then the eight offset bytes
LSB-first; all arithmetic on `uint64_t`. -/
def hash_fnv1a (path : List Nat) (offset : Nat) : Nat :=
  let h0 := path.foldl (fun h b => ((h ^^^ b % 256) * 1099511628211) % 2 ^ 64)
    14695981039346656037
  (List.range 8).foldl
    (fun h i => ((h ^^^ (offset >>> (i * 8)) % 256) * 1099511628211) % 2 ^ 64) h0

/-! ### On-disk structures (bigcache.h)

All on-disk structures are `__attribute__((packed))` little-endian, so a
struct write is byte-for-byte the little-endian rendering of its fields
in declaration order; a field of width `k` written from a wider value
keeps its low `k` bytes, which `catB`'s `% 256^k` performs. -/

/-- `BigCacheHeader` (bigcache.h): 88 packed bytes on disk
(the 32-byte `reserved` tail stays zero). -/
structure BigCacheHeader where
  magic : Nat
  version : Nat
  num_pages : Nat
  num_files : Nat
  data_offset : Nat
  index_offset : Nat
  file_table_offset : Nat
  total_size : Nat
  checksum : Nat
  flags : Nat
deriving DecidableEq, Inhabited

/-- The 88 on-disk bytes of a header (fields in declaration order,
`reserved[32]` zero as the packer `memset`s the header first). -/
def serializeBigCacheHeader (h : BigCacheHeader) : Nat :=
  catB h.magic 4 (catB h.version 4 (catB h.num_pages 4 (catB h.num_files 4
    (catB h.data_offset 8 (catB h.index_offset 8 (catB h.file_table_offset 8
      (catB h.total_size 8 (catB h.checksum 4 (catB h.flags 4 0)))))))))

/-- `BigCachePageIndex` (bigcache.h): packed 20-byte page record
`u32 file_id, u64 source_offset, u32 access_order, u16 flags,
u16 reserved`. -/
structure BigCachePageIndex where
  file_id : Nat
  source_offset : Nat
  access_order : Nat
  flags : Nat
deriving DecidableEq, Inhabited

/-- The 20 on-disk bytes of one page record (its `reserved` u16 stays
zero: the output mapping starts zero-filled). -/
def serializeBigCachePageIndex (r : BigCachePageIndex) : Nat :=
  catB r.file_id 4 (catB r.source_offset 8 (catB r.access_order 4
    (catB r.flags 2 0)))

/-- The 532 on-disk bytes of one `BigCacheFileEntry` as `packer_build`
writes it: `file_id`, `path_len = strlen(path)` after `strncpy`
truncation to 511 bytes, this file's page count, `original_size = 0`,
then the path in its zero-filled 512-byte buffer. -/
def serializeBigCacheFileEntry (fid : Nat) (path : List Nat) (total_pages : Nat) :
    Nat :=
  let stored := path.take 511
  catB fid 4 (catB stored.length 4 (catB total_pages 4 (catB 0 8
    (listToBytes stored))))

/-! ### Packer (bigcache_packer.c) -/

/-- `PackerPageEntry` (bigcache.h); the 512-byte `file_path` buffer
holds at most 511 path bytes. -/
structure PackerPageEntry where
  file_path : List Nat
  offset : Nat
  size : Nat
  access_order : Nat
deriving DecidableEq, Inhabited

/-- `BigCachePacker` (bigcache.h): the page entries and the file list.
Capacity management (`realloc` growth) has no observable effect and is
not represented. -/
structure BigCachePacker where
  entries : List PackerPageEntry
  file_paths : List (List Nat)
deriving DecidableEq, Inhabited

/-- `packer_create` (allocation failure aside). -/
def packer_create : BigCachePacker := ⟨[], []⟩

/-- `find_or_add_file`: linear scan by `strcmp`; appends the path when
absent; `none` models the `-1` failure when the file table is full. -/
def find_or_add_file (paths : List (List Nat)) (p : List Nat) :
    Option (Nat × List (List Nat)) :=
  match paths.findIdx? (fun q => q == p) with
  | some i => some (i, paths)
  | none =>
    if MAX_FILES ≤ paths.length then none
    else some (paths.length, paths ++ [p])

/-- `page_exists`: page-aligns the offset and scans the entries. -/
def page_exists (packer : BigCachePacker) (path : List Nat) (offset : Nat) : Bool :=
  packer.entries.any
    (fun e => e.offset == pageAlign offset && e.file_path == path)

/-- `packer_add_page`: page-align, skip duplicates (returning 0), else
append the entry (path truncated by `strncpy` to 511 bytes) and register
the file (which only touches `file_paths`; the entry stays appended even
when `find_or_add_file` fails with `-ENOMEM`, as in the source).
Returns the C `int` result and the updated packer. -/
def packer_add_page (packer : BigCachePacker) (file_path : List Nat)
    (offset : Nat) (access_order : Nat) : Int × BigCachePacker :=
  if page_exists packer file_path (pageAlign offset) then (0, packer)
  else
    match find_or_add_file packer.file_paths file_path with
    | none =>
      (-12, { packer with entries := packer.entries ++
        [⟨file_path.take 511, pageAlign offset, PAGE_SIZE, access_order⟩] })
    | some (_, ps) =>
      (0, { packer with
        entries := packer.entries ++
          [⟨file_path.take 511, pageAlign offset, PAGE_SIZE, access_order⟩],
        file_paths := ps })

/-- A file visible to the packer: its bytes (as a buffer) and size. -/
structure FileData where
  val : Nat
  size : Nat

/-- A filesystem snapshot at build time: path to optional contents. -/
def FS : Type := List Nat → Option FileData

/-- Whether `pread(fd, buf, 4096, offset)` returns exactly `PAGE_SIZE`
for this entry: the file opens and has at least `offset + 4096` bytes. -/
def srcReadFull (fs : FS) (pe : PackerPageEntry) : Bool :=
  match fs pe.file_path with
  | some c => decide (pe.offset + PAGE_SIZE ≤ c.size)
  | none => false

/-- Decimal digits (ASCII) of `n`, as `printf`'s `%lu`/`%u` renders it. -/
def decBytes (n : Nat) : List Nat :=
  if _h : n < 10 then [48 + n]
  else decBytes (n / 10) ++ [48 + n % 10]
decreasing_by exact Nat.div_lt_self (by omega) (by omega)

/-- The bytes of the literal `"SIMULATED PAGE\nFile: "`. -/
def SIM_PREFIX : List Nat :=
  [83, 73, 77, 85, 76, 65, 84, 69, 68, 32, 80, 65, 71, 69, 10,
   70, 105, 108, 101, 58, 32]

/-- The bytes of the literal `"\nOffset: "`. -/
def SIM_OFFSET_LABEL : List Nat := [10, 79, 102, 102, 115, 101, 116, 58, 32]

/-- The bytes of the literal `"\nOrder: "`. -/
def SIM_ORDER_LABEL : List Nat := [10, 79, 114, 100, 101, 114, 58, 32]

/-- The page `packer_build` emits when the source file cannot be opened:
the page is zero-filled, then `snprintf(page, 256, "SIMULATED PAGE\n..."`
writes at most 255 text bytes at its start (the rest stays zero). -/
def simulatedPage (pe : PackerPageEntry) : Nat :=
  listToBytes ((SIM_PREFIX ++ pe.file_path ++ SIM_OFFSET_LABEL ++ decBytes pe.offset ++
    SIM_ORDER_LABEL ++ decBytes pe.access_order ++ [10]).take 255)

/-- The 4 KiB buffer written for one page entry by `packer_build`:
a full `pread` copies the source bytes at `[offset, offset + 4096)`; a
short read leaves the page zero-filled (`memset`); an open failure
produces the simulated page. -/
def pageData (fs : FS) (pe : PackerPageEntry) : Nat :=
  match fs pe.file_path with
  | some c =>
    if pe.offset + PAGE_SIZE ≤ c.size then seg c.val pe.offset PAGE_SIZE
    else 0
  | none => simulatedPage pe

/-- `strstr(hay, sub) != NULL` on byte strings. -/
def hasSub (hay sub : List Nat) : Bool :=
  (List.range (hay.length + 1)).any (fun i => sub.isPrefixOf (hay.drop i))

/-- The bytes of the literal `".so"`. -/
def EXT_SO : List Nat := [46, 115, 111]

/-- The bytes of the literal `".odex"`. -/
def EXT_ODEX : List Nat := [46, 111, 100, 101, 120]

/-- The bytes of the literal `".oat"`. -/
def EXT_OAT : List Nat := [46, 111, 97, 116]

/-- The page-flag heuristic of `packer_build`:
`PAGE_FLAG_EXECUTABLE` (bit 0) when the path contains `.so`, `.odex`
or `.oat`. -/
def pageFlags (path : List Nat) : Nat :=
  if hasSub path EXT_SO || hasSub path EXT_ODEX || hasSub path EXT_OAT then 1 else 0

/-- The index records `packer_build` emits: `find_or_add_file` is called
again per entry (threading the file list), and its `-1` failure is
stored through the `uint32_t` `file_id` as `2^32 - 1`. -/
def assignFileIds : List PackerPageEntry → List (List Nat) → List BigCachePageIndex
  | [], _ => []
  | pe :: rest, paths =>
    match find_or_add_file paths pe.file_path with
    | some (fid, paths') =>
      ⟨fid, pe.offset, pe.access_order, pageFlags pe.file_path⟩ ::
        assignFileIds rest paths'
    | none =>
      ⟨2 ^ 32 - 1, pe.offset, pe.access_order, pageFlags pe.file_path⟩ ::
        assignFileIds rest paths

/-- The layout `packer_build` computes for `n` pages and `m` files, in
`size_t` arithmetic. -/
structure BuildLayout where
  index_size : Nat
  file_table_size : Nat
  data_size : Nat
  index_offset : Nat
  file_table_offset : Nat
  data_offset : Nat
  total_size : Nat

/-- `sizeof(BigCacheHeader) = 88`, `sizeof(BigCachePageIndex) = 20`,
`sizeof(BigCacheFileEntry) = 532`; index after header, file table after
index, data page-aligned after the file table. -/
def buildLayout (n m : Nat) : BuildLayout :=
  let index_size := n * 20 % 2 ^ 64
  let file_table_size := m * 532 % 2 ^ 64
  let data_size := n * PAGE_SIZE % 2 ^ 64
  let index_offset := 88
  let file_table_offset := (index_offset + index_size) % 2 ^ 64
  let data_offset := alignUp4096 (file_table_offset + file_table_size)
  { index_size := index_size, file_table_size := file_table_size,
    data_size := data_size, index_offset := index_offset,
    file_table_offset := file_table_offset, data_offset := data_offset,
    total_size := (data_offset + data_size) % 2 ^ 64 }

/-- The header `packer_build` writes before the CRC back-patch
(`checksum` still zero; counts stored through `uint32_t`). -/
def buildHeader0 (n m : Nat) : BigCacheHeader :=
  { magic := BIGCACHE_MAGIC, version := BIGCACHE_VERSION,
    num_pages := n % 2 ^ 32, num_files := m % 2 ^ 32,
    data_offset := (buildLayout n m).data_offset,
    index_offset := (buildLayout n m).index_offset,
    file_table_offset := (buildLayout n m).file_table_offset,
    total_size := (buildLayout n m).total_size,
    checksum := 0, flags := 0 }

/-- The index region `packer_build` writes: the 20-byte records at
20-byte strides. -/
def buildIndexBytes (packer : BigCachePacker) : Nat :=
  chunksB 20
    ((assignFileIds packer.entries packer.file_paths).map serializeBigCachePageIndex)

/-- The file-table region `packer_build` writes: the 532-byte entries at
532-byte strides (`total_pages` counted by `strcmp` against each entry's
stored path). -/
def buildFileTableBytes (packer : BigCachePacker) : Nat :=
  chunksB 532 ((List.range packer.file_paths.length).map (fun i =>
    serializeBigCacheFileEntry i (packer.file_paths.getD i [])
      (packer.entries.countP
        (fun e => e.file_path == packer.file_paths.getD i []))))

/-- The data region `packer_build` writes: one 4 KiB page per entry, in
entry order. -/
def buildDataBytes (packer : BigCachePacker) (fs : FS) : Nat :=
  chunksB PAGE_SIZE (packer.entries.map (pageData fs))

/-- The output file of `packer_build` before the CRC back-patch: header,
index records, file table, zero padding to the page-aligned data offset,
then the data pages. -/
def buildPre (packer : BigCachePacker) (fs : FS) : Nat :=
  catB (serializeBigCacheHeader
      (buildHeader0 packer.entries.length packer.file_paths.length)) 88
    (catB (buildIndexBytes packer)
      (buildLayout packer.entries.length packer.file_paths.length).index_size
      (catB (buildFileTableBytes packer)
        (buildLayout packer.entries.length packer.file_paths.length).file_table_size
        (catB 0
          ((buildLayout packer.entries.length packer.file_paths.length).data_offset -
            (88 + (buildLayout packer.entries.length packer.file_paths.length).index_size +
              (buildLayout packer.entries.length packer.file_paths.length).file_table_size))
          (buildDataBytes packer fs))))

/-- The checksum `packer_build` computes:
`bigcache_crc32(output + 8, total_size - 8)` with the checksum field
still zero in the buffer. -/
def buildChecksum (packer : BigCachePacker) (fs : FS) : Nat :=
  bigcache_crc32 (buildPre packer fs / 256 ^ 8)
    ((buildLayout packer.entries.length packer.file_paths.length).total_size - 8)

/-- The result of a successful `packer_build`: the output file's bytes,
a copy of the header, and the page counters it reports. -/
structure BuiltBundle where
  bytes : Nat
  header : BigCacheHeader
  successful_pages : Nat
  failed_pages : Nat
deriving Inhabited

/-- `packer_build`: `none` for the `-EINVAL` empty-packer case (host I/O
failures are not modelled); otherwise lay the bundle out, copy each
source page (zero page on short read, simulated page on open failure;
both count as failed/"simulated" pages), and back-patch the CRC32 into
the `uint32_t` checksum field at byte offset 48. -/
def packer_build (packer : BigCachePacker) (fs : FS) : Option BuiltBundle :=
  if packer.entries.isEmpty then none
  else
    some { bytes := patchU32 (buildPre packer fs) 48 (buildChecksum packer fs),
           header := { buildHeader0 packer.entries.length packer.file_paths.length
             with checksum := buildChecksum packer fs },
           successful_pages := packer.entries.countP (fun e => srcReadFull fs e),
           failed_pages := packer.entries.countP (fun e => !srcReadFull fs e) }

/-! ### Runtime lookup index (bigcache_index.c) -/

/-- `RuntimePageEntry` (bigcache.h). -/
structure RuntimePageEntry where
  file_path : List Nat
  source_offset : Nat
  bigcache_offset : Nat
  access_order : Nat
deriving DecidableEq, Inhabited

/-- `PageLookupTable`: the bucket array is a function from bucket index
to its chain (a fresh table is `calloc`ed, i.e. all chains empty). -/
structure PageLookupTable where
  num_buckets : Nat
  buckets : Nat → List RuntimePageEntry
  num_entries : Nat
deriving Inhabited

/-- `create_lookup_table`: `num_buckets = num_entries * 3 / 2`, raised
to 1024 when below it. -/
def create_lookup_table (num_entries : Nat) : PageLookupTable :=
  { num_buckets := if num_entries * 3 / 2 < 1024 then 1024 else num_entries * 3 / 2,
    buckets := fun _ => [],
    num_entries := 0 }

/-- `lookup_table_insert`: prepend a new bucket node at
`hash % num_buckets` (allocation failure not modelled). -/
def lookup_table_insert (t : PageLookupTable) (e : RuntimePageEntry) :
    PageLookupTable :=
  let idx := hash_fnv1a e.file_path e.source_offset % t.num_buckets
  { t with
    buckets := fun j => if j = idx then e :: t.buckets idx else t.buckets j,
    num_entries := t.num_entries + 1 }

/-- `lookup_table_find`: walk the chain at `hash % num_buckets`,
matching on offset equality and `strcmp`. -/
def lookup_table_find (t : PageLookupTable) (file_path : List Nat)
    (source_offset : Nat) : Option RuntimePageEntry :=
  let idx := hash_fnv1a file_path source_offset % t.num_buckets
  (t.buckets idx).find?
    (fun e => e.source_offset == source_offset && e.file_path == file_path)

/-- `BigCacheContext` (bigcache.h).  `mapped_data` is the origin of all
returned page pointers, so pointers are modelled as plain offsets and the
field itself is not represented; `fd` is not represented. -/
structure BigCacheContext where
  mapped_size : Nat
  header : BigCacheHeader
  lookup_table : PageLookupTable
  hit_count : Nat
  miss_count : Nat
  total_bytes_served : Nat
  is_loaded : Bool
  is_preheated : Bool
deriving Inhabited

/-- The header copy `bigcache_load` takes from the first 88 mapped
bytes (packed little-endian fields in declaration order). -/
def parseBigCacheHeader (bytes : Nat) : BigCacheHeader :=
  { magic := seg bytes 0 4, version := seg bytes 4 4,
    num_pages := seg bytes 8 4, num_files := seg bytes 12 4,
    data_offset := seg bytes 16 8, index_offset := seg bytes 24 8,
    file_table_offset := seg bytes 32 8, total_size := seg bytes 40 8,
    checksum := seg bytes 48 4, flags := seg bytes 52 4 }

/-- The record `ctx->page_index[i]`: 20 packed bytes at
`index_offset + 20 * i` of the mapping. -/
def pageRecordAt (bytes index_offset i : Nat) : BigCachePageIndex :=
  let b := seg bytes (index_offset + 20 * i) 20
  { file_id := seg b 0 4, source_offset := seg b 4 8,
    access_order := seg b 12 4, flags := seg b 16 2 }

/-- The C string `ctx->file_table[fid].path`: the path buffer sits at
offset 20 = 4+4+4+8 of the 532-byte entry; `strdup` stops at the first
NUL (within the 512-byte buffer). -/
def filePathAt (bytes file_table_offset fid : Nat) : List Nat :=
  parseCStr (seg bytes (file_table_offset + 532 * fid + 20) 512) 512

/-- The `RuntimePageEntry` that `bigcache_load` inserts for page record
`i`: the path of `file_table[record.file_id]`, the record's source
offset, `data_offset + i * PAGE_SIZE` (a `uint64_t`), and its access
order. -/
def loadEntry (bytes : Nat) (h : BigCacheHeader) (i : Nat) : RuntimePageEntry :=
  let pi := pageRecordAt bytes h.index_offset i
  { file_path := filePathAt bytes h.file_table_offset pi.file_id,
    source_offset := pi.source_offset,
    bigcache_offset := (h.data_offset + i * PAGE_SIZE) % 2 ^ 64,
    access_order := pi.access_order }

/-- `bigcache_load` on a mapped bundle file (`bytes` its contents,
`size` its `fstat` size): copy and check the header (magic, version),
then build the lookup table by inserting every page record.  Host
failures (open, fstat, mmap, allocation) are not modelled; the two
modelled failures return `-EINVAL` as in the source. -/
def bigcache_load (bytes size : Nat) : Except Int BigCacheContext :=
  if (parseBigCacheHeader bytes).magic ≠ BIGCACHE_MAGIC then .error (-22)
  else if (parseBigCacheHeader bytes).version ≠ BIGCACHE_VERSION then .error (-22)
  else
    .ok { mapped_size := size, header := parseBigCacheHeader bytes,
          lookup_table := (List.range (parseBigCacheHeader bytes).num_pages).foldl
            (fun t i => lookup_table_insert t (loadEntry bytes (parseBigCacheHeader bytes) i))
            (create_lookup_table (parseBigCacheHeader bytes).num_pages),
          hit_count := 0, miss_count := 0, total_bytes_served := 0,
          is_loaded := true, is_preheated := false }

/-- `bigcache_lookup`: `NULL` context, unloaded context or `NULL` path
give `NULL`; otherwise page-align and query the table, counting a miss
or a hit (+ `total_bytes_served`).  The returned `Option Nat` is the
page pointer as an offset from `mapped_data`; the second component is
the context after its statistics updates. -/
def bigcache_lookup (octx : Option BigCacheContext) (opath : Option (List Nat))
    (offset : Nat) : Option Nat × Option BigCacheContext :=
  match octx, opath with
  | some ctx, some p =>
    if ctx.is_loaded then
      match lookup_table_find ctx.lookup_table p (pageAlign offset) with
      | none => (none, some { ctx with miss_count := ctx.miss_count + 1 })
      | some e =>
        (some e.bigcache_offset,
         some { ctx with hit_count := ctx.hit_count + 1,
                         total_bytes_served := ctx.total_bytes_served + PAGE_SIZE })
    else (none, octx)
  | _, _ => (none, octx)

/-- `bigcache_lookup_offset`: like `bigcache_lookup` but through an out
parameter.  `outNull` models a `NULL` `out_bigcache_offset` argument; the
result is `(return value, value stored through the out pointer, context)`.
A hit bumps only `hit_count`. -/
def bigcache_lookup_offset (octx : Option BigCacheContext)
    (opath : Option (List Nat)) (offset : Nat) (outNull : Bool) :
    Int × Option Nat × Option BigCacheContext :=
  match octx, opath with
  | some ctx, some p =>
    if ctx.is_loaded && !outNull then
      match lookup_table_find ctx.lookup_table p (pageAlign offset) with
      | none => (-2, none, some { ctx with miss_count := ctx.miss_count + 1 })
      | some e =>
        (0, some e.bigcache_offset,
         some { ctx with hit_count := ctx.hit_count + 1 })
    else (-22, none, some ctx)
  | _, _ => (-22, none, octx)

/-- `bigcache_verify`: `-EINVAL` on a `NULL`/unloaded context, `-1` on a
magic or `total_size`-vs-mapped-size mismatch, else success.  The CRC32
recomputation is a `TODO` in the source and therefore absent here. -/
def bigcache_verify (octx : Option BigCacheContext) : Int :=
  match octx with
  | none => -22
  | some ctx =>
    if !ctx.is_loaded then -22
    else if ctx.header.magic ≠ BIGCACHE_MAGIC then -1
    else if ctx.header.total_size ≠ ctx.mapped_size then -1
    else 0

/-! ### Userfaultfd handler (uffd_handler.c)

Only the pieces the claims touch are embedded: the region list, the
config and counter statistics, and `_uffd_handle_pagefault`.  The three
`double` timing fields of `UffdStats` are not represented (floating
point; the counter claims do not involve them, and the source only
touches them inside the same `enable_stats` success block).  The
`UFFDIO_COPY` ioctl is the environment: its outcome is passed in as
`none` (success) or `some errno`. -/

/-- `MemoryRegion` (uffd_handler.h), addresses as numbers. -/
structure MemoryRegion where
  base : Nat
  size : Nat
  file_path : List Nat
  file_offset_base : Nat
  prot : Nat
deriving DecidableEq, Inhabited

/-- The counter fields of `UffdStats` (uffd_handler.h). -/
structure UffdStats where
  total_faults : Nat
  cache_hits : Nat
  cache_misses : Nat
  zero_fills : Nat
  copy_errors : Nat
deriving DecidableEq, Inhabited

/-- The config fields of `UffdConfig` the fault path reads. -/
structure UffdConfig where
  enable_zero_fill : Bool
  enable_stats : Bool
deriving DecidableEq, Inhabited

/-- The handler state `_uffd_handle_pagefault` touches. -/
structure UffdHandler where
  bigcache : Option BigCacheContext
  regions : List MemoryRegion
  config : UffdConfig
  stats : UffdStats
deriving Inhabited

/-- `_uffd_find_region`: first region whose `[base, base + size)` range
contains the address. -/
def uffd_find_region (h : UffdHandler) (addr : Nat) : Option MemoryRegion :=
  h.regions.find? (fun r => r.base ≤ addr && addr < r.base + r.size)

/-- The success-path statistics block of `_uffd_handle_pagefault`
(executed only when `enable_stats` is set). -/
def updateFaultStats (h : UffdHandler) (cache_hit : Bool) : UffdHandler :=
  if h.config.enable_stats then
    { h with stats :=
      { h.stats with
        total_faults := h.stats.total_faults + 1,
        cache_hits := if cache_hit then h.stats.cache_hits + 1 else h.stats.cache_hits,
        zero_fills := if !cache_hit && h.config.enable_zero_fill then
          h.stats.zero_fills + 1 else h.stats.zero_fills,
        cache_misses := if !cache_hit && !h.config.enable_zero_fill then
          h.stats.cache_misses + 1 else h.stats.cache_misses } }
  else h

/-- The cache query `_uffd_handle_pagefault` issues once it has found
the region: `bigcache_lookup(handler->bigcache, region->file_path,
region->file_offset_base + (page_addr - region->base))`. -/
def faultLookup (h : UffdHandler) (region : MemoryRegion) (page_addr : Nat) :
    Option Nat × Option BigCacheContext :=
  bigcache_lookup h.bigcache (some region.file_path)
    (region.file_offset_base + (page_addr - region.base))

/-- The tail of `_uffd_handle_pagefault` after the cache query, on the
handler state `h1` whose `bigcache` the query already updated: decline
with `-ENODATA` on a miss with zero-fill disabled, then issue
`UFFDIO_COPY`: a failure with errno other than `EEXIST` (17) counts a
`copy_error` and returns `-errno`; otherwise the success statistics are
recorded and the result is 0. -/
def uffd_service_fault (h1 : UffdHandler) (cache_hit : Bool)
    (copyResult : Option Nat) : Int × UffdHandler :=
  if !cache_hit && !h1.config.enable_zero_fill then (-61, h1)
  else
    match copyResult with
    | some e =>
      if e ≠ 17 then
        (-(e : Int),
         if h1.config.enable_stats then
           { h1 with stats :=
             { h1.stats with copy_errors := h1.stats.copy_errors + 1 } }
         else h1)
      else (0, updateFaultStats h1 cache_hit)
    | none => (0, updateFaultStats h1 cache_hit)

/-- `_uffd_handle_pagefault`: page-align the fault address, find its
region (error `-ENOENT` if none), look the file offset up in the
BigCache (which updates the cache's own hit/miss counters), then service
the fault as in `uffd_service_fault`.  `copyResult` is the `UFFDIO_COPY`
ioctl outcome (`none` = success, `some e` = failure with errno `e`). -/
def uffd_handle_pagefault (h : UffdHandler) (fault_addr : Nat)
    (copyResult : Option Nat) : Int × UffdHandler :=
  match uffd_find_region h (pageAlign fault_addr) with
  | none => (-2, h)
  | some region =>
    uffd_service_fault
      { h with bigcache := (faultLookup h region (pageAlign fault_addr)).2 }
      (faultLookup h region (pageAlign fault_addr)).1.isSome copyResult

/-! ### Concrete instances used by counterexamples and witnesses -/

/-- The one-byte path `"f"`. -/
def exPathF : List Nat := [102]

/-- The one-byte path `"s"`. -/
def exPathS : List Nat := [115]

/-- A 4096-byte file whose every byte is `7`. -/
def sevenPage : Nat := 7 * (256 ^ 4096 - 1) / 255

/-- A filesystem with the single file `"f"` (4096 bytes of `7`). -/
def fsA : FS := fun p => if p == exPathF then some ⟨sevenPage, 4096⟩ else none

/-- A packer fed the single trace record `("f", 0, order 5)`. -/
def packerA : BigCachePacker := (packer_add_page packer_create exPathF 0 5).2

/-- The bundle built from `packerA` over `fsA` (one fully-read page). -/
def bundleA : BuiltBundle := (packer_build packerA fsA).getD default

/-- `bundleA.bytes` with the byte at `data_offset` (= 4096) changed:
a single-byte corruption inside the data region. -/
def corruptA : Nat :=
  setByte bundleA.bytes 4096 ((seg bundleA.bytes 4096 1 + 1) % 256)

/-- A filesystem with the single file `"s"` of one byte `0x01`:
a `pread` of 4096 bytes from it is short. -/
def fsB : FS := fun p => if p == exPathS then some ⟨1, 1⟩ else none

/-- A packer fed the single trace record `("s", 123, order 3)`
(offset 123 page-aligns to 0). -/
def packerB : BigCachePacker := (packer_add_page packer_create exPathS 123 3).2

/-- The bundle built from `packerB` over `fsB` (one short-read page). -/
def bundleB : BuiltBundle := (packer_build packerB fsB).getD default

/-- Spec-side page contents, following claim C1's wording: the 4 KiB
read from the origin file at `source_offset`, with a short read keeping
the bytes that were read and zero-padding the tail, and an open failure
giving an all-zero page.  (In the little-endian buffer encoding, keeping
the `size - offset` bytes that exist and zero-padding the tail is
exactly `seg val offset 4096` for a file with `val < 256^size`.) -/
def specPageData (fs : FS) (pe : PackerPageEntry) : Nat :=
  match fs pe.file_path with
  | some c => seg c.val pe.offset PAGE_SIZE
  | none => 0

/-- A consistent header for a two-record, one-file bundle. -/
def c4Hdr : BigCacheHeader :=
  { magic := BIGCACHE_MAGIC, version := 1, num_pages := 2, num_files := 1,
    data_offset := 4096, index_offset := 88, file_table_offset := 128,
    total_size := 12288, checksum := 0, flags := 0 }

/-- The metadata bytes of that bundle: header, two page records
(`("f", 0)` and `("f", 4096)`), one file entry. -/
def c4Bytes : Nat :=
  catB (serializeBigCacheHeader c4Hdr) 88
    (catB (serializeBigCachePageIndex ⟨0, 0, 7, 0⟩) 20
      (catB (serializeBigCachePageIndex ⟨0, 4096, 8, 0⟩) 20
        (serializeBigCacheFileEntry 0 exPathF 2)))

/-- A consistent header for a 683-record, one-file bundle
(`file_table_offset = 88 + 683·20`, `total_size = 16384 + 683·4096`). -/
def c8Hdr : BigCacheHeader :=
  { magic := BIGCACHE_MAGIC, version := 1, num_pages := 683, num_files := 1,
    data_offset := 16384, index_offset := 88, file_table_offset := 13748,
    total_size := 2813952, checksum := 0, flags := 0 }

/-- The 683 page records `("f", 4096·i, order i)` laid out at 20-byte
strides. -/
def c8Index : Nat := (List.range 683).foldl
  (fun acc i => acc + serializeBigCachePageIndex ⟨0, 4096 * i, i, 0⟩ * 256 ^ (20 * i)) 0

/-- A loadable 683-page bundle (the data region is all zeros, which the
loader never reads). -/
def c8Bytes : Nat :=
  catB (serializeBigCacheHeader c8Hdr) 88
    (catB c8Index 13660 (serializeBigCacheFileEntry 0 exPathF 683))

/-- The context obtained by loading the 683-page bundle. -/
def c8Ctx : BigCacheContext := (bigcache_load c8Bytes 2813952).toOption.getD default

/-- A handler with statistics enabled and no registered regions. -/
def c9Handler : UffdHandler :=
  { bigcache := none, regions := [],
    config := { enable_zero_fill := true, enable_stats := true },
    stats := ⟨0, 0, 0, 0, 0⟩ }

/-- `P` holds of the value when the operation succeeded (vacuous on
failure): the form in which properties of `packer_build`/`bigcache_load`
results are stated. -/
def OptP {α : Type} (o : Option α) (P : α → Prop) : Prop :=
  match o with
  | none => True
  | some a => P a

/-- `P` holds of the value when the `Except` operation succeeded
(vacuous on failure). -/
def ExcP {ε α : Type} (o : Except ε α) (P : α → Prop) : Prop :=
  match o with
  | .error _ => True
  | .ok a => P a

/-! ## Theorems -/

/-! ### The page mask on 64-bit values -/

theorem testBit_PAGE_MASK64 (i : Nat) :
    Nat.testBit PAGE_MASK64 i = (decide (12 ≤ i) && decide (i < 64)) := by
  have h : PAGE_MASK64 = (2 ^ 52 - 1) <<< 12 := by decide
  rw [h, Nat.testBit_shiftLeft, Nat.testBit_two_pow_sub_one]
  rcases Nat.lt_or_ge i 12 with h12 | h12
  · simp [Nat.not_le.mpr h12, show ¬(12 ≤ i) from Nat.not_le.mpr h12]
  · have he : (i ≥ 12) = (12 ≤ i) := rfl
    have : (i - 12 < 52) = (i < 64) := by
      apply propext; omega
    simp [he, h12, this]

/-- `x & ~0xFFF` on a 64-bit value truncates to 64 bits and clears the
low 12 bits. -/
theorem and_PAGE_MASK64_eq (x : Nat) :
    x &&& PAGE_MASK64 = x % 2 ^ 64 / 4096 * 4096 := by
  have hp : (4096 : Nat) = 2 ^ 12 := by norm_num
  have hr : x % 2 ^ 64 / 4096 * 4096 = ((x % 2 ^ 64) >>> 12) <<< 12 := by
    rw [Nat.shiftLeft_eq, Nat.shiftRight_eq_div_pow, hp]
  apply Nat.eq_of_testBit_eq
  intro i
  rw [hr]
  simp only [Nat.testBit_and, testBit_PAGE_MASK64, Nat.testBit_shiftLeft,
    Nat.testBit_shiftRight, Nat.testBit_mod_two_pow]
  rcases Nat.lt_or_ge i 12 with h12 | h12
  · simp [show ¬(12 ≤ i) from Nat.not_le.mpr h12, show ¬(i ≥ 12) from Nat.not_le.mpr h12]
  · have hi : 12 + (i - 12) = i := by omega
    by_cases h64 : i < 64
    · simp [h12, show i ≥ 12 from h12, hi, h64, show i - 12 < 52 from by omega,
        Bool.and_comm]
    · simp [h12, show i ≥ 12 from h12, hi, h64, show ¬(i - 12 < 52) from by omega]

theorem pageAlign_eq (off : Nat) : pageAlign off = off % 2 ^ 64 / 4096 * 4096 :=
  and_PAGE_MASK64_eq off

/-- Page alignment is idempotent. -/
theorem pageAlign_idem (off : Nat) : pageAlign (pageAlign off) = pageAlign off := by
  unfold pageAlign
  rw [Nat.and_assoc, Nat.and_self]

theorem alignUp4096_eq (x : Nat) (h : x + 4095 < 2 ^ 64) :
    alignUp4096 x = (x + 4095) / 4096 * 4096 := by
  unfold alignUp4096
  rw [and_PAGE_MASK64_eq, Nat.mod_eq_of_lt h]

theorem le_alignUp4096 (x : Nat) (h : x + 4095 < 2 ^ 64) : x ≤ alignUp4096 x := by
  rw [alignUp4096_eq x h]
  have h1 := Nat.div_add_mod (x + 4095) 4096
  have h2 : (x + 4095) % 4096 < 4096 := Nat.mod_lt _ (by omega)
  omega

/-! ### Buffer algebra -/

theorem pow256_pos (k : Nat) : 0 < 256 ^ k := Nat.pos_pow_of_pos k (by norm_num)

theorem seg_lt (b off k : Nat) : seg b off k < 256 ^ k :=
  Nat.mod_lt _ (pow256_pos k)

theorem catB_mod (a la b : Nat) : catB a la b % 256 ^ la = a % 256 ^ la := by
  unfold catB
  rw [Nat.add_mul_mod_self_right]
  exact Nat.mod_mod_of_dvd _ dvd_rfl

theorem catB_div (a la b : Nat) : catB a la b / 256 ^ la = b := by
  unfold catB
  rw [Nat.add_mul_div_right _ _ (pow256_pos la),
    Nat.div_eq_of_lt (Nat.mod_lt _ (pow256_pos la))]
  omega

theorem catB_lt (a la b B : Nat) (hb : b < B) : catB a la b < 256 ^ la * B := by
  unfold catB
  have h1 : a % 256 ^ la < 256 ^ la := Nat.mod_lt _ (pow256_pos la)
  calc a % 256 ^ la + b * 256 ^ la < 256 ^ la + b * 256 ^ la := by omega
    _ = (b + 1) * 256 ^ la := by ring
    _ ≤ B * 256 ^ la := Nat.mul_le_mul_right _ hb
    _ = 256 ^ la * B := Nat.mul_comm _ _

theorem seg_catB_right (a la b j k : Nat) :
    seg (catB a la b) (la + j) k = seg b j k := by
  unfold seg
  rw [pow_add, ← Nat.div_div_eq_div_mul, catB_div]

theorem seg_catB_left (a la b j k : Nat) (h : j + k ≤ la) :
    seg (catB a la b) j k = seg a j k := by
  unfold seg catB
  obtain ⟨d, hd⟩ : 256 ^ (j + k) ∣ 256 ^ la := pow_dvd_pow 256 h
  have hjk : (256 : Nat) ^ la = 256 ^ j * (256 ^ k * d) := by
    rw [hd, pow_add]; ring
  rw [hjk]
  rw [show a % (256 ^ j * (256 ^ k * d)) + b * (256 ^ j * (256 ^ k * d)) =
    a % (256 ^ j * (256 ^ k * d)) + 256 ^ j * (b * (256 ^ k * d)) from by ring]
  rw [Nat.add_mul_div_left _ _ (pow256_pos j), Nat.mod_mul_right_div_self]
  rw [show b * (256 ^ k * d) = b * d * 256 ^ k from by ring]
  rw [Nat.add_mul_mod_self_right]
  exact Nat.mod_mod_of_dvd _ (Dvd.intro d rfl)

theorem chunksB_seg (L : Nat) (xs : List Nat) (hx : ∀ x ∈ xs, x < 256 ^ L) :
    ∀ i, i < xs.length → seg (chunksB L xs) (L * i) L = xs.getD i 0 := by
  induction xs with
  | nil => intro i hi; simp at hi
  | cons x rest ih =>
    intro i hi
    match i with
    | 0 =>
      have hx0 : x < 256 ^ L := hx x (by simp)
      rw [Nat.mul_zero]
      show seg (catB x L (chunksB L rest)) 0 L = x
      rw [show (0 : Nat) = 0 + 0 from rfl]
      rw [seg_catB_left x L _ 0 L (by omega)]
      unfold seg
      simpa using Nat.mod_eq_of_lt hx0
    | i + 1 =>
      have : L * (i + 1) = L + L * i := by ring
      rw [this]
      show seg (catB x L (chunksB L rest)) (L + L * i) L = _
      rw [seg_catB_right]
      exact ih (fun y hy => hx y (by simp [hy])) i (by simpa using hi)

/-- The CRC back-patch rewritten as buffer concatenation. -/
theorem patchU32_eq_catB (b off v : Nat) :
    patchU32 b off v = catB b off (catB v 4 (b / 256 ^ (off + 4))) := by
  unfold patchU32 catB
  have h : (256 : Nat) ^ (off + 4) = 256 ^ 4 * 256 ^ off := by
    rw [pow_add]; ring
  rw [h]; ring

theorem seg_patchU32_lt (b off v j k : Nat) (h : j + k ≤ off) :
    seg (patchU32 b off v) j k = seg b j k := by
  rw [patchU32_eq_catB, seg_catB_left _ _ _ _ _ h]

theorem seg_patchU32_ge (b off v j k : Nat) (h : off + 4 ≤ j) :
    seg (patchU32 b off v) j k = seg b j k := by
  rw [patchU32_eq_catB]
  have hj : j = off + (4 + (j - off - 4)) := by omega
  rw [hj, seg_catB_right, seg_catB_right]
  unfold seg
  rw [Nat.div_div_eq_div_mul, ← pow_add]
  have he : off + 4 + (j - off - 4) = off + (4 + (j - off - 4)) := by omega
  rw [he]

theorem patchU32_patchU32 (b off v w : Nat) :
    patchU32 (patchU32 b off v) off w = patchU32 b off w := by
  have hmod : patchU32 b off v % 256 ^ off = b % 256 ^ off := by
    rw [patchU32_eq_catB, catB_mod]
  have hdiv : patchU32 b off v / 256 ^ (off + 4) = b / 256 ^ (off + 4) := by
    rw [patchU32_eq_catB, pow_add, ← Nat.div_div_eq_div_mul, catB_div, catB_div]
  rw [patchU32_eq_catB (patchU32 b off v), hdiv, patchU32_eq_catB b off w]
  unfold catB
  rw [hmod]

theorem patchU32_zero (b off : Nat) (h : seg b off 4 = 0) :
    patchU32 b off 0 = b := by
  unfold patchU32
  have hsplit : b % 256 ^ (off + 4) = b % 256 ^ off := by
    rw [pow_add, Nat.mod_mul]
    have h0 : b / 256 ^ off % 256 ^ 4 = 0 := h
    rw [h0, Nat.mul_zero, Nat.add_zero]
  have hdm := Nat.div_add_mod b (256 ^ (off + 4))
  rw [Nat.mul_comm (256 ^ (off + 4))] at hdm
  simp only [Nat.zero_mod, Nat.zero_mul, Nat.add_zero]
  omega

/-! ### The CRC32 implementation matches the source's table-driven loop -/

/-- The packed table constant is the table `init_crc32_table` computes,
row `i` at byte offset `4·i`. -/
theorem crc32_table_packed_spec :
    crc32_table_packed =
      (List.range 256).foldl (fun acc i => acc + crc32_entry i * 256 ^ (4 * i)) 0 := by
  decide

/-- Looking a row up in the packed table is `crc32_table[i]`. -/
theorem crc32_table_packed_lookup (i : Nat) (h : i < 256) :
    crc32_table_packed / 256 ^ (4 * i) % 2 ^ 32 = crc32_entry i := by
  revert i
  decide

/-- The executable update step is the source's
`crc32_table[(crc ^ buf[i]) & 0xFF] ^ (crc >> 8)`. -/
theorem crc32_update_spec (crc b : Nat) :
    crc32_update crc b = crc32_entry ((crc ^^^ b) % 256) ^^^ crc / 256 := by
  unfold crc32_update
  rw [crc32_table_packed_lookup _ (Nat.mod_lt _ (by norm_num))]

/-- Splitting the CRC byte loop. -/
theorem crcLoop_add (m : Nat) :
    ∀ b crc k, crcLoop b crc (m + k) = crcLoop (b / 256 ^ m) (crcLoop b crc m) k := by
  induction m with
  | zero =>
    intro b crc k
    simp [crcLoop]
  | succ m ih =>
    intro b crc k
    have h1 : m + 1 + k = (m + k) + 1 := by omega
    rw [h1]
    show crcLoop (b / 256) (crc32_update crc (b % 256)) (m + k) = _
    rw [ih]
    have h2 : b / 256 / 256 ^ m = b / 256 ^ (m + 1) := by
      rw [Nat.div_div_eq_div_mul, pow_succ, Nat.mul_comm (256 ^ m)]
    rw [h2]
    rfl

theorem seqN_eq (x : Nat) (f : Nat → Nat) : seqN x f = f x := by
  unfold seqN
  match x with
  | 0 => rfl
  | n + 1 => rfl

/-- The halving evaluation strategy computes exactly the linear loop. -/
theorem crcFast_spec (fuel : Nat) :
    ∀ b crc n, crcFast fuel b crc n = crcLoop b crc n := by
  induction fuel with
  | zero => intro b crc n; rfl
  | succ f ih =>
    intro b crc n
    match n with
    | 0 => rfl
    | 1 => rfl
    | n + 2 =>
      show seqN (crcFast f b crc ((n + 2) / 2))
        (fun c => crcFast f (b / 256 ^ ((n + 2) / 2)) c (n + 2 - (n + 2) / 2)) = _
      rw [seqN_eq, ih, ih]
      have h2 : (n + 2) / 2 + (n + 2 - (n + 2) / 2) = n + 2 := by omega
      conv_rhs => rw [← h2]
      rw [crcLoop_add]

/-- `bigcache_crc32` is the source's loop: init `0xFFFFFFFF`, one
table-driven update per byte, final xor with `0xFFFFFFFF`. -/
theorem bigcache_crc32_spec (b len : Nat) :
    bigcache_crc32 b len = crcLoop b 0xFFFFFFFF len ^^^ 0xFFFFFFFF := by
  unfold bigcache_crc32
  rw [crcFast_spec]

/-! ### Hash-table correctness -/

theorem lookup_table_insert_buckets (t : PageLookupTable) (e : RuntimePageEntry)
    (j : Nat) :
    (lookup_table_insert t e).buckets j =
      if j = hash_fnv1a e.file_path e.source_offset % t.num_buckets
      then e :: t.buckets (hash_fnv1a e.file_path e.source_offset % t.num_buckets)
      else t.buckets j := rfl

/-- Finding after an insert: the inserted entry when the key matches
(it sits at the head of its chain), the previous result otherwise. -/
theorem find_insert (t : PageLookupTable) (e : RuntimePageEntry)
    (p : List Nat) (o : Nat) :
    lookup_table_find (lookup_table_insert t e) p o =
      if e.source_offset = o ∧ e.file_path = p then some e
      else lookup_table_find t p o := by
  show ((lookup_table_insert t e).buckets (hash_fnv1a p o % t.num_buckets)).find?
    (fun x => x.source_offset == o && x.file_path == p) = _
  rw [lookup_table_insert_buckets]
  by_cases hidx : hash_fnv1a p o % t.num_buckets =
      hash_fnv1a e.file_path e.source_offset % t.num_buckets
  · rw [if_pos hidx]
    by_cases hkey : e.source_offset = o ∧ e.file_path = p
    · rw [if_pos hkey]
      exact List.find?_cons_of_pos _ (by simp [hkey.1, hkey.2])
    · rw [if_neg hkey]
      rw [List.find?_cons_of_neg]
      · show _ = lookup_table_find t p o
        rw [← hidx]
        rfl
      · by_cases h1 : e.source_offset = o
        · have h2 : e.file_path ≠ p := fun h2 => hkey ⟨h1, h2⟩
          simp [h1, h2]
        · simp [h1]
  · have hkey : ¬(e.source_offset = o ∧ e.file_path = p) := by
      rintro ⟨h1, h2⟩
      exact hidx (by rw [← h1, ← h2])
    rw [if_neg hidx, if_neg hkey]
    rfl

/-- Inserting entries whose keys all differ from `(p, o)` leaves the
result of finding `(p, o)` unchanged. -/
theorem find_foldl_insert_of_ne (p : List Nat) (o : Nat) :
    ∀ (es : List RuntimePageEntry) (t : PageLookupTable),
      (∀ e ∈ es, ¬(e.source_offset = o ∧ e.file_path = p)) →
      lookup_table_find (es.foldl lookup_table_insert t) p o =
        lookup_table_find t p o := by
  intro es
  induction es with
  | nil => intro t _; rfl
  | cons e rest ih =>
    intro t h
    rw [List.foldl_cons, ih _ (fun x hx => h x (by simp [hx])), find_insert,
      if_neg (h e (by simp))]

/-- After inserting `l₁ ++ e :: l₂` in order, finding `e`'s key returns
`e` provided no later entry (`l₂`) shares that key. -/
theorem find_foldl_insert_split (l₁ l₂ : List RuntimePageEntry)
    (e : RuntimePageEntry) (t : PageLookupTable)
    (h₂ : ∀ x ∈ l₂, ¬(x.source_offset = e.source_offset ∧ x.file_path = e.file_path)) :
    lookup_table_find ((l₁ ++ e :: l₂).foldl lookup_table_insert t)
      e.file_path e.source_offset = some e := by
  rw [List.foldl_append, List.foldl_cons, find_foldl_insert_of_ne _ _ _ _ h₂,
    find_insert, if_pos ⟨rfl, rfl⟩]

/-- Inserting never changes the bucket count. -/
theorem foldl_insert_num_buckets {α : Type} (g : α → RuntimePageEntry) :
    ∀ (l : List α) (t : PageLookupTable),
      ((l.foldl (fun t i => lookup_table_insert t (g i)) t)).num_buckets =
        t.num_buckets := by
  intro l
  induction l with
  | nil => intro t; rfl
  | cons x rest ih => intro t; rw [List.foldl_cons, ih]; rfl

/-! ### Claim C7 -/

/-- C7: for every context, file path and offset, `bigcache_lookup`
returns the same result on `offset` as on the page-aligned
`offset & ~0xFFF` — lookup is invariant under page-aligning its offset
argument (the statistics updates coincide as well, since the whole
result pair is equal). -/
theorem c7_lookup_page_aligned (octx : Option BigCacheContext)
    (opath : Option (List Nat)) (offset : Nat) :
    bigcache_lookup octx opath offset =
      bigcache_lookup octx opath (pageAlign offset) := by
  cases octx with
  | none => rfl
  | some ctx =>
    cases opath with
    | none => rfl
    | some p =>
      simp only [bigcache_lookup, pageAlign_idem]

/-! ### Claim C8 -/

/-- C8 counterexample: the 683-record bundle `c8Bytes` loads
successfully, its lookup table has 1024 buckets, and
`2 · 1024 < 3 · 683`, i.e. the bucket count is strictly below 1.5 times
the record count, contradicting the claimed
`≥ max(1024, 1.5 × record count)` bound. -/
theorem c8_counterexample :
    (bigcache_load c8Bytes 2813952).toOption.isSome = true ∧
    c8Ctx.header.num_pages = 683 ∧
    c8Ctx.lookup_table.num_buckets = 1024 ∧
    2 * c8Ctx.lookup_table.num_buckets < 3 * c8Ctx.header.num_pages := by
  decide

/-- C8 (amended): for every loaded bundle, the lookup table's bucket
count equals `max 1024 (num_pages * 3 / 2)` — at least 1024 always, but
`⌊1.5 n⌋` rather than `1.5 n`, which for odd `n ≥ 683` is half a bucket
below the claimed bound. -/
theorem c8_bucket_count (bytes size : Nat) :
    OptP (bigcache_load bytes size).toOption
      (fun ctx =>
        ctx.lookup_table.num_buckets =
          max 1024 (ctx.header.num_pages * 3 / 2)) := by
  unfold bigcache_load
  split
  · exact trivial
  · split
    · exact trivial
    · show (List.foldl
          (fun t i => lookup_table_insert t (loadEntry bytes (parseBigCacheHeader bytes) i))
          (create_lookup_table (parseBigCacheHeader bytes).num_pages)
          (List.range (parseBigCacheHeader bytes).num_pages)).num_buckets =
        max 1024 ((parseBigCacheHeader bytes).num_pages * 3 / 2)
      rw [foldl_insert_num_buckets]
      simp only [create_lookup_table]
      split <;> omega

/-! ### Claim C10 -/

/-- C10: with a null context, an unloaded context, or a null file-path
argument, `bigcache_lookup` returns `NULL` and `bigcache_lookup_offset`
returns `-EINVAL`, and the context (in particular `hit_count` and
`miss_count`) is returned unchanged. -/
theorem c10_invalid_args (octx : Option BigCacheContext)
    (opath : Option (List Nat)) (offset : Nat) (outNull : Bool)
    (hbad : octx = none ∨ (∃ c, octx = some c ∧ c.is_loaded = false) ∨
      opath = none) :
    bigcache_lookup octx opath offset = (none, octx) ∧
    bigcache_lookup_offset octx opath offset outNull = (-22, none, octx) := by
  rcases hbad with h | ⟨c, hc, hl⟩ | h
  · subst h; exact ⟨rfl, rfl⟩
  · subst hc
    cases opath with
    | none => exact ⟨rfl, rfl⟩
    | some p =>
      constructor
      · simp [bigcache_lookup, hl]
      · simp [bigcache_lookup_offset, hl]
  · subst h
    cases octx <;> exact ⟨rfl, rfl⟩

theorem c10_invalid_args_witness :
    ((none : Option BigCacheContext) = none ∨
      (∃ c, (none : Option BigCacheContext) = some c ∧ c.is_loaded = false) ∨
      (some exPathF : Option (List Nat)) = none) ∧
    (bigcache_lookup none (some exPathF) 4096 = (none, none) ∧
     bigcache_lookup_offset none (some exPathF) 4096 false = (-22, none, none)) :=
  ⟨Or.inl rfl, c10_invalid_args none (some exPathF) 4096 false (Or.inl rfl)⟩

/-! ### Claim C9 -/

/-- C9 counterexample: on a fault at an address covered by no region,
`_uffd_handle_pagefault` returns the error `-ENOENT` with the handler's
statistics left unchanged, even though statistics are enabled — an error
return that increments no `handler->stats` counter. -/
theorem c9_counterexample :
    c9Handler.config.enable_stats = true ∧
    (uffd_handle_pagefault c9Handler 20480 none).1 = -2 ∧
    (uffd_handle_pagefault c9Handler 20480 none).2.stats = c9Handler.stats := by
  decide

/-- C9 (amended): with statistics enabled, an error return of
`_uffd_handle_pagefault` either is the no-region error `-ENOENT` or the
miss-with-zero-fill-disabled error `-ENODATA`, both of which leave
`handler->stats` unchanged (the latter bumps only the BigCache context's
own `miss_count`), or it is a failed-copy error, which increments
exactly the `copy_errors` counter. -/
theorem service_fault_error_stats (h1 : UffdHandler) (cache_hit : Bool)
    (copyResult : Option Nat)
    (hs : h1.config.enable_stats = true)
    (herr : (uffd_service_fault h1 cache_hit copyResult).1 < 0) :
    ((uffd_service_fault h1 cache_hit copyResult).2.stats = h1.stats ∧
      (uffd_service_fault h1 cache_hit copyResult).1 = -61) ∨
    (uffd_service_fault h1 cache_hit copyResult).2.stats.copy_errors =
      h1.stats.copy_errors + 1 := by
  unfold uffd_service_fault at herr ⊢
  by_cases hmiss : (!cache_hit && !h1.config.enable_zero_fill) = true
  · rw [if_pos hmiss] at herr ⊢
    exact Or.inl ⟨rfl, rfl⟩
  · rw [if_neg hmiss] at herr ⊢
    cases copyResult with
    | none => simp at herr
    | some e =>
      dsimp only at herr ⊢
      by_cases he : e = 17
      · subst he
        simp at herr
      · rw [if_pos he] at herr ⊢
        rw [if_pos hs] at herr ⊢
        exact Or.inr rfl

theorem c9_error_stats (h : UffdHandler) (fault_addr : Nat)
    (copyResult : Option Nat)
    (hs : h.config.enable_stats = true)
    (herr : (uffd_handle_pagefault h fault_addr copyResult).1 < 0) :
    ((uffd_handle_pagefault h fault_addr copyResult).2.stats = h.stats ∧
      ((uffd_handle_pagefault h fault_addr copyResult).1 = -2 ∨
        (uffd_handle_pagefault h fault_addr copyResult).1 = -61)) ∨
    (uffd_handle_pagefault h fault_addr copyResult).2.stats.copy_errors =
      h.stats.copy_errors + 1 := by
  unfold uffd_handle_pagefault at herr ⊢
  cases hf : uffd_find_region h (pageAlign fault_addr) with
  | none =>
    exact Or.inl ⟨rfl, Or.inl rfl⟩
  | some region =>
    rw [hf] at herr
    dsimp only at herr ⊢
    have := service_fault_error_stats
      { h with bigcache := (faultLookup h region (pageAlign fault_addr)).2 }
      (faultLookup h region (pageAlign fault_addr)).1.isSome copyResult hs herr
    rcases this with ⟨h1, h2⟩ | h3
    · exact Or.inl ⟨h1, Or.inr h2⟩
    · exact Or.inr h3

theorem c9_error_stats_witness :
    c9Handler.config.enable_stats = true ∧
    (uffd_handle_pagefault c9Handler 20480 none).1 < 0 ∧
    (((uffd_handle_pagefault c9Handler 20480 none).2.stats = c9Handler.stats ∧
      ((uffd_handle_pagefault c9Handler 20480 none).1 = -2 ∨
        (uffd_handle_pagefault c9Handler 20480 none).1 = -61)) ∨
      (uffd_handle_pagefault c9Handler 20480 none).2.stats.copy_errors =
        c9Handler.stats.copy_errors + 1) :=
  ⟨by decide, by decide,
    c9_error_stats c9Handler 20480 none (by decide) (by decide)⟩

/-! ### Claim C6 -/

theorem page_exists_pageAlign (p : BigCachePacker) (path : List Nat) (o : Nat) :
    page_exists p path (pageAlign o) = page_exists p path o := by
  unfold page_exists
  rw [pageAlign_idem]

/-- C6: adding `(path, o, k)` to a packer without that page, then
`(path, o', k')` with `o'` aligning to the same page, leaves the second
call returning success (0) with the packer unchanged, and the packer
holds exactly one record for that (path, aligned offset) pair, carrying
the first-inserted `access_order` `k`.  (`path` fits the 512-byte entry
buffer, i.e. at most 511 bytes.) -/
theorem c6_add_page_idempotent (p0 : BigCachePacker) (path : List Nat)
    (o o' k k' : Nat)
    (hlen : path.length ≤ 511)
    (hal : pageAlign o' = pageAlign o)
    (hnew : page_exists p0 path o = false) :
    (packer_add_page (packer_add_page p0 path o k).2 path o' k').1 = 0 ∧
    (packer_add_page (packer_add_page p0 path o k).2 path o' k').2 =
      (packer_add_page p0 path o k).2 ∧
    (packer_add_page (packer_add_page p0 path o k).2 path o' k').2.entries.filter
        (fun e => e.offset == pageAlign o && e.file_path == path) =
      [⟨path, pageAlign o, PAGE_SIZE, k⟩] := by
  have htake : path.take 511 = path := List.take_of_length_le hlen
  have h1 : page_exists p0 path (pageAlign o) = false := by
    rw [page_exists_pageAlign]; exact hnew
  have hp1 : (packer_add_page p0 path o k).2.entries =
      p0.entries ++ [⟨path, pageAlign o, PAGE_SIZE, k⟩] := by
    unfold packer_add_page
    rw [if_neg (by simp [h1])]
    cases hfa : find_or_add_file p0.file_paths path with
    | none => simp [htake]
    | some pr => simp [htake]
  have hex : page_exists (packer_add_page p0 path o k).2 path (pageAlign o') = true := by
    unfold page_exists
    rw [hp1, List.any_append]
    have : pageAlign (pageAlign o') = pageAlign o := by
      rw [pageAlign_idem, hal]
    simp [this]
  have hcall2 : ∀ p1 : BigCachePacker, page_exists p1 path (pageAlign o') = true →
      packer_add_page p1 path o' k' = (0, p1) := by
    intro p1 hx
    unfold packer_add_page
    rw [if_pos hx]
  refine ⟨?_, ?_, ?_⟩
  · rw [hcall2 _ hex]
  · rw [hcall2 _ hex]
  · rw [hcall2 _ hex]
    show (packer_add_page p0 path o k).2.entries.filter _ = _
    rw [hp1, List.filter_append]
    have hnil : p0.entries.filter
        (fun e => e.offset == pageAlign o && e.file_path == path) = [] := by
      unfold page_exists at hnew
      rw [List.filter_eq_nil_iff]
      intro a ha hcon
      have : p0.entries.any
          (fun e => e.offset == pageAlign o && e.file_path == path) = true :=
        List.any_eq_true.mpr ⟨a, ha, hcon⟩
      rw [this] at hnew
      exact Bool.noConfusion hnew
    rw [hnil]
    simp

/-! ### Structure of the built bundle -/

theorem listToBytes_lt (l : List Nat) : listToBytes l < 256 ^ l.length := by
  induction l with
  | nil => simp [listToBytes]
  | cons x xs ih =>
    show x % 256 + 256 * listToBytes xs < 256 ^ (xs.length + 1)
    have hx : x % 256 < 256 := Nat.mod_lt _ (by norm_num)
    calc x % 256 + 256 * listToBytes xs < 256 + 256 * listToBytes xs := by omega
      _ = 256 * (listToBytes xs + 1) := by ring
      _ ≤ 256 * 256 ^ xs.length := Nat.mul_le_mul_left _ ih
      _ = 256 ^ (xs.length + 1) := by rw [pow_succ, Nat.mul_comm]

theorem simulatedPage_lt (pe : PackerPageEntry) :
    simulatedPage pe < 256 ^ PAGE_SIZE := by
  unfold simulatedPage
  generalize (SIM_PREFIX ++ pe.file_path ++ SIM_OFFSET_LABEL ++ decBytes pe.offset ++
    SIM_ORDER_LABEL ++ decBytes pe.access_order ++ [10]) = l
  refine lt_of_lt_of_le (listToBytes_lt _) (Nat.pow_le_pow_right (by norm_num) ?_)
  rw [List.length_take]
  have hp : PAGE_SIZE = 4096 := rfl
  omega

theorem pageData_lt (fs : FS) (pe : PackerPageEntry) :
    pageData fs pe < 256 ^ PAGE_SIZE := by
  unfold pageData
  cases fs pe.file_path with
  | none => exact simulatedPage_lt pe
  | some c =>
    dsimp only
    by_cases h : pe.offset + PAGE_SIZE ≤ c.size
    · rw [if_pos h]
      exact seg_lt _ _ _
    · rw [if_neg h]
      exact pow256_pos _

theorem serializeBigCachePageIndex_lt (r : BigCachePageIndex) :
    serializeBigCachePageIndex r < 256 ^ 20 := by
  unfold serializeBigCachePageIndex
  have h0 : catB r.flags 2 0 < 256 ^ 2 * 1 := catB_lt _ _ _ _ (by omega)
  have h1 : catB r.access_order 4 (catB r.flags 2 0) < 256 ^ 4 * (256 ^ 2 * 1) :=
    catB_lt _ _ _ _ h0
  have h2 : catB r.source_offset 8 (catB r.access_order 4 (catB r.flags 2 0)) <
      256 ^ 8 * (256 ^ 4 * (256 ^ 2 * 1)) := catB_lt _ _ _ _ h1
  have h3 := catB_lt r.file_id 4 _ _ h2
  calc catB r.file_id 4 _ < 256 ^ 4 * (256 ^ 8 * (256 ^ 4 * (256 ^ 2 * 1))) := h3
    _ = 256 ^ 18 := by ring
    _ ≤ 256 ^ 20 := Nat.pow_le_pow_right (by norm_num) (by omega)

theorem assignFileIds_length :
    ∀ (es : List PackerPageEntry) (ps : List (List Nat)),
      (assignFileIds es ps).length = es.length := by
  intro es
  induction es with
  | nil => intro ps; rfl
  | cons pe rest ih =>
    intro ps
    unfold assignFileIds
    cases find_or_add_file ps pe.file_path with
    | none => simp [ih]
    | some pr => simp [ih]

theorem getD_map_of_lt {α β : Type} (f : α → β) (l : List α) (i : Nat)
    (hi : i < l.length) (d0 : β) (d : α) :
    (l.map f).getD i d0 = f (l.getD i d) := by
  rw [List.getD_eq_getElem l d hi,
    List.getD_eq_getElem (l.map f) d0 (by simpa using hi), List.getElem_map]

/-- The layout quantities in the overflow-free regime. -/
theorem buildLayout_spec (n m : Nat)
    (hsz : 88 + n * 20 + m * 532 + 4095 < 2 ^ 64) :
    (buildLayout n m).index_size = n * 20 ∧
    (buildLayout n m).file_table_size = m * 532 ∧
    (buildLayout n m).index_offset = 88 ∧
    (buildLayout n m).file_table_offset = 88 + n * 20 ∧
    (buildLayout n m).data_offset = alignUp4096 (88 + n * 20 + m * 532) ∧
    88 + n * 20 + m * 532 ≤ (buildLayout n m).data_offset := by
  have h1 : n * 20 % 2 ^ 64 = n * 20 := Nat.mod_eq_of_lt (by omega)
  have h2 : m * 532 % 2 ^ 64 = m * 532 := Nat.mod_eq_of_lt (by omega)
  have h3 : (88 + n * 20 % 2 ^ 64) % 2 ^ 64 = 88 + n * 20 := by
    rw [h1]; exact Nat.mod_eq_of_lt (by omega)
  refine ⟨h1, h2, rfl, h3, ?_, ?_⟩
  · show alignUp4096 ((88 + n * 20 % 2 ^ 64) % 2 ^ 64 + m * 532 % 2 ^ 64) = _
    rw [h2, h3]
  · show 88 + n * 20 + m * 532 ≤
      alignUp4096 ((88 + n * 20 % 2 ^ 64) % 2 ^ 64 + m * 532 % 2 ^ 64)
    rw [h2, h3]
    exact le_alignUp4096 _ (by omega)

theorem seg_catB_front (a la b k : Nat) :
    seg (catB a la b) la k = seg b 0 k :=
  seg_catB_right a la b 0 k

/-- The checksum field of the unpatched output is zero. -/
theorem seg_buildPre_checksum (p : BigCachePacker) (fs : FS) :
    seg (buildPre p fs) 48 4 = 0 := by
  unfold buildPre
  rw [seg_catB_left]
  · unfold serializeBigCacheHeader
    rw [show (48 : Nat) = 4 + 44 from rfl, seg_catB_right,
      show (44 : Nat) = 4 + 40 from rfl, seg_catB_right,
      show (40 : Nat) = 4 + 36 from rfl, seg_catB_right,
      show (36 : Nat) = 4 + 32 from rfl, seg_catB_right,
      show (32 : Nat) = 8 + 24 from rfl, seg_catB_right,
      show (24 : Nat) = 8 + 16 from rfl, seg_catB_right,
      show (16 : Nat) = 8 + 8 from rfl, seg_catB_right,
      seg_catB_front,
      show (buildHeader0 p.entries.length p.file_paths.length).checksum = 0 from rfl,
      show (buildHeader0 p.entries.length p.file_paths.length).flags = 0 from rfl]
    rfl
  · omega

/-! ### Claim C3 (amended) -/

/-- C3 (amended): the checksum field written by `packer_build` equals
the CRC32 (poly `0xEDB88320`, init/final-xor `0xFFFFFFFF`) of the bundle
bytes from byte offset 8 — the first byte after the `version` field, not
after the CRC field — through end-of-file, taken with the 4-byte
checksum field itself zeroed (its value while the CRC was computed). -/
theorem c3_checksum_region (p : BigCachePacker) (fs : FS) :
    OptP (packer_build p fs) (fun b =>
      b.header.checksum =
        bigcache_crc32 (patchU32 b.bytes 48 0 / 256 ^ 8)
          (b.header.total_size - 8)) := by
  unfold packer_build
  split
  · exact trivial
  · show buildChecksum p fs =
      bigcache_crc32
        (patchU32 (patchU32 (buildPre p fs) 48 (buildChecksum p fs)) 48 0 / 256 ^ 8)
        ((buildLayout p.entries.length p.file_paths.length).total_size - 8)
    rw [patchU32_patchU32, patchU32_zero _ _ (seg_buildPre_checksum p fs)]
    rfl

/-! ### Claim C5 (amended) -/

/-- C5 (amended): the index region of a built bundle occupies
`20 * num_pages` bytes — each serialized page record is 20 bytes, not
26 — so the file table begins `20 * num_pages` bytes after the index
region's start, and the 20-byte slot at `88 + 20 * i` holds the `i`-th
serialized record. -/
theorem c5_index_region (p : BigCachePacker) (fs : FS)
    (hn : p.entries.length < 2 ^ 32) :
    OptP (packer_build p fs) (fun b =>
      b.header.index_offset = 88 ∧
      b.header.file_table_offset = b.header.index_offset + 20 * p.entries.length ∧
      ∀ i, i < p.entries.length →
        seg b.bytes (88 + 20 * i) 20 =
          serializeBigCachePageIndex
            ((assignFileIds p.entries p.file_paths).getD i default)) := by
  unfold packer_build
  split
  · exact trivial
  · refine ⟨rfl, ?_, ?_⟩
    · show (88 + p.entries.length * 20 % 2 ^ 64) % 2 ^ 64 =
        88 + 20 * p.entries.length
      have h1 : p.entries.length * 20 % 2 ^ 64 = p.entries.length * 20 :=
        Nat.mod_eq_of_lt (by omega)
      have h2 : (88 + p.entries.length * 20) % 2 ^ 64 = 88 + p.entries.length * 20 :=
        Nat.mod_eq_of_lt (by omega)
      rw [h1, h2]
      omega
    · intro i hi
      show seg (patchU32 (buildPre p fs) 48 (buildChecksum p fs)) (88 + 20 * i) 20 =
        serializeBigCachePageIndex
          ((assignFileIds p.entries p.file_paths).getD i default)
      rw [seg_patchU32_ge (buildPre p fs) 48 (buildChecksum p fs) (88 + 20 * i) 20
        (by omega)]
      unfold buildPre
      rw [seg_catB_right]
      rw [seg_catB_left]
      · unfold buildIndexBytes
        rw [chunksB_seg 20
          ((assignFileIds p.entries p.file_paths).map serializeBigCachePageIndex)
          (by
            intro x hx
            obtain ⟨r, hrm, rfl⟩ := List.mem_map.mp hx
            exact serializeBigCachePageIndex_lt r)
          i
          (by rw [List.length_map, assignFileIds_length]; exact hi)]
        rw [getD_map_of_lt serializeBigCachePageIndex
          (assignFileIds p.entries p.file_paths) i
          (by rw [assignFileIds_length]; exact hi) 0 default]
      · show 20 * i + 20 ≤ p.entries.length * 20 % 2 ^ 64
        rw [Nat.mod_eq_of_lt (by omega)]
        omega

theorem c5_index_region_witness :
    packerA.entries.length < 2 ^ 32 ∧
    OptP (packer_build packerA fsA) (fun b =>
      b.header.index_offset = 88 ∧
      b.header.file_table_offset = b.header.index_offset + 20 * packerA.entries.length ∧
      ∀ i, i < packerA.entries.length →
        seg b.bytes (88 + 20 * i) 20 =
          serializeBigCachePageIndex
            ((assignFileIds packerA.entries packerA.file_paths).getD i default)) :=
  ⟨by decide, c5_index_region packerA fsA (by decide)⟩

/-! ### Claim C1 (amended) -/

/-- C1 (amended): each data page of a built bundle holds `pageData`: the
4 KiB copied from the origin file when the full read succeeds, an
all-zero page when the read is short (the bytes that were read are
discarded, not preserved), and the "SIMULATED PAGE" text page — not an
all-zero page — when the origin file cannot be opened; the bundle's
`failed_pages` counter counts exactly the entries whose full read
failed. -/
theorem c1_page_contents (p : BigCachePacker) (fs : FS)
    (hsz : 88 + p.entries.length * 20 + p.file_paths.length * 532 + 4095 < 2 ^ 64) :
    OptP (packer_build p fs) (fun b =>
      (∀ i, i < p.entries.length →
        seg b.bytes (b.header.data_offset + PAGE_SIZE * i) PAGE_SIZE =
          pageData fs (p.entries.getD i default)) ∧
      b.failed_pages = p.entries.countP (fun e => !srcReadFull fs e)) := by
  unfold packer_build
  split
  · exact trivial
  · obtain ⟨his, hfs, hio, hfto, hdo, hge⟩ :=
      buildLayout_spec p.entries.length p.file_paths.length hsz
    refine ⟨?_, rfl⟩
    intro i hi
    show seg (patchU32 (buildPre p fs) 48 (buildChecksum p fs))
      ((buildLayout p.entries.length p.file_paths.length).data_offset + PAGE_SIZE * i)
      PAGE_SIZE = pageData fs (p.entries.getD i default)
    rw [seg_patchU32_ge (buildPre p fs) 48 (buildChecksum p fs)
      ((buildLayout p.entries.length p.file_paths.length).data_offset + PAGE_SIZE * i)
      PAGE_SIZE (by omega)]
    unfold buildPre
    rw [show (buildLayout p.entries.length p.file_paths.length).data_offset +
        PAGE_SIZE * i =
        88 + ((buildLayout p.entries.length p.file_paths.length).index_size +
          ((buildLayout p.entries.length p.file_paths.length).file_table_size +
            (((buildLayout p.entries.length p.file_paths.length).data_offset -
              (88 + (buildLayout p.entries.length p.file_paths.length).index_size +
                (buildLayout p.entries.length p.file_paths.length).file_table_size)) +
              PAGE_SIZE * i))) from by omega]
    rw [seg_catB_right, seg_catB_right, seg_catB_right, seg_catB_right]
    unfold buildDataBytes
    rw [chunksB_seg PAGE_SIZE (p.entries.map (pageData fs))
      (by
        intro x hx
        obtain ⟨e, hem, rfl⟩ := List.mem_map.mp hx
        exact pageData_lt fs e)
      i
      (by rw [List.length_map]; exact hi)]
    rw [getD_map_of_lt (pageData fs) p.entries i hi 0 default]

theorem c1_page_contents_witness :
    88 + packerB.entries.length * 20 + packerB.file_paths.length * 532 + 4095 < 2 ^ 64 ∧
    OptP (packer_build packerB fsB) (fun b =>
      (∀ i, i < packerB.entries.length →
        seg b.bytes (b.header.data_offset + PAGE_SIZE * i) PAGE_SIZE =
          pageData fsB (packerB.entries.getD i default)) ∧
      b.failed_pages = packerB.entries.countP (fun e => !srcReadFull fsB e)) :=
  ⟨by decide, c1_page_contents packerB fsB (by decide)⟩

/-! ### Claim C4 -/

/-- Looking up the key of the `i`-th inserted entry after inserting the
entries of `g` over `0, …, n-1` finds exactly that entry, provided no
other inserted entry shares its key. -/
theorem find_foldl_insert_range (g : Nat → RuntimePageEntry) :
    ∀ (n i : Nat), i < n →
      (∀ j, j < n → j ≠ i →
        ¬((g j).source_offset = (g i).source_offset ∧
          (g j).file_path = (g i).file_path)) →
      ∀ (t : PageLookupTable),
        lookup_table_find
          ((List.range n).foldl (fun t j => lookup_table_insert t (g j)) t)
          (g i).file_path (g i).source_offset = some (g i) := by
  intro n
  induction n with
  | zero => intro i hi; exact absurd hi (Nat.not_lt_zero i)
  | succ n ih =>
    intro i hi hdist t
    rw [List.range_succ, List.foldl_append, List.foldl_cons, List.foldl_nil,
      find_insert]
    by_cases hin : i = n
    · subst hin
      rw [if_pos ⟨rfl, rfl⟩]
    · rw [if_neg (hdist n (Nat.lt_succ_self n) (fun h => hin h.symm))]
      exact ih i (by omega) (fun j hj hne => hdist j (by omega) hne) t

/-- C4: after `bigcache_load` succeeds on a bundle whose page records
have pairwise-distinct (path, source-offset) keys, page-aligned source
offsets and a data region that fits in `uint64_t`, looking up record
`i`'s path and source offset hits: `bigcache_lookup` returns the page
pointer at offset `data_offset + i * 4096` from `mapped_data`, and
`bigcache_lookup_offset` returns 0 and stores that same offset. -/
theorem c4_lookup_determinism (bytes size i : Nat)
    (hi : i < (parseBigCacheHeader bytes).num_pages)
    (hfit : (parseBigCacheHeader bytes).data_offset +
      (parseBigCacheHeader bytes).num_pages * PAGE_SIZE ≤ 2 ^ 64)
    (halign : pageAlign (loadEntry bytes (parseBigCacheHeader bytes) i).source_offset =
      (loadEntry bytes (parseBigCacheHeader bytes) i).source_offset)
    (hdist : ∀ j, j < (parseBigCacheHeader bytes).num_pages → j ≠ i →
      ¬((loadEntry bytes (parseBigCacheHeader bytes) j).source_offset =
          (loadEntry bytes (parseBigCacheHeader bytes) i).source_offset ∧
        (loadEntry bytes (parseBigCacheHeader bytes) j).file_path =
          (loadEntry bytes (parseBigCacheHeader bytes) i).file_path)) :
    ExcP (bigcache_load bytes size) (fun ctx =>
      (bigcache_lookup (some ctx)
          (some (loadEntry bytes (parseBigCacheHeader bytes) i).file_path)
          (loadEntry bytes (parseBigCacheHeader bytes) i).source_offset).1 =
        some ((parseBigCacheHeader bytes).data_offset + i * PAGE_SIZE) ∧
      (bigcache_lookup_offset (some ctx)
          (some (loadEntry bytes (parseBigCacheHeader bytes) i).file_path)
          (loadEntry bytes (parseBigCacheHeader bytes) i).source_offset false).1 = 0 ∧
      (bigcache_lookup_offset (some ctx)
          (some (loadEntry bytes (parseBigCacheHeader bytes) i).file_path)
          (loadEntry bytes (parseBigCacheHeader bytes) i).source_offset false).2.1 =
        some ((parseBigCacheHeader bytes).data_offset + i * PAGE_SIZE)) := by
  have hmod : ((parseBigCacheHeader bytes).data_offset + i * PAGE_SIZE) % 2 ^ 64 =
      (parseBigCacheHeader bytes).data_offset + i * PAGE_SIZE := by
    apply Nat.mod_eq_of_lt
    have h2 : (i + 1) * PAGE_SIZE ≤
        (parseBigCacheHeader bytes).num_pages * PAGE_SIZE :=
      Nat.mul_le_mul_right PAGE_SIZE hi
    unfold PAGE_SIZE at h2 hfit ⊢
    omega
  have hfind := find_foldl_insert_range (loadEntry bytes (parseBigCacheHeader bytes))
    (parseBigCacheHeader bytes).num_pages i hi hdist
    (create_lookup_table (parseBigCacheHeader bytes).num_pages)
  unfold bigcache_load
  split
  · exact trivial
  · split
    · exact trivial
    · refine ⟨?_, ?_, ?_⟩
      · unfold bigcache_lookup
        dsimp only
        rw [if_pos rfl, halign, hfind]
        show some (((parseBigCacheHeader bytes).data_offset + i * PAGE_SIZE) % 2 ^ 64) =
          _
        rw [hmod]
      · unfold bigcache_lookup_offset
        dsimp only
        rw [if_pos (show (true && !false) = true from rfl), halign, hfind]
      · unfold bigcache_lookup_offset
        dsimp only
        rw [if_pos (show (true && !false) = true from rfl), halign, hfind]
        show some (((parseBigCacheHeader bytes).data_offset + i * PAGE_SIZE) % 2 ^ 64) =
          _
        rw [hmod]

theorem c4_lookup_determinism_witness :
    0 < (parseBigCacheHeader c4Bytes).num_pages ∧
    (parseBigCacheHeader c4Bytes).data_offset +
      (parseBigCacheHeader c4Bytes).num_pages * PAGE_SIZE ≤ 2 ^ 64 ∧
    pageAlign (loadEntry c4Bytes (parseBigCacheHeader c4Bytes) 0).source_offset =
      (loadEntry c4Bytes (parseBigCacheHeader c4Bytes) 0).source_offset ∧
    ExcP (bigcache_load c4Bytes 12288) (fun ctx =>
      (bigcache_lookup (some ctx)
          (some (loadEntry c4Bytes (parseBigCacheHeader c4Bytes) 0).file_path)
          (loadEntry c4Bytes (parseBigCacheHeader c4Bytes) 0).source_offset).1 =
        some ((parseBigCacheHeader c4Bytes).data_offset + 0 * PAGE_SIZE) ∧
      (bigcache_lookup_offset (some ctx)
          (some (loadEntry c4Bytes (parseBigCacheHeader c4Bytes) 0).file_path)
          (loadEntry c4Bytes (parseBigCacheHeader c4Bytes) 0).source_offset false).1 = 0 ∧
      (bigcache_lookup_offset (some ctx)
          (some (loadEntry c4Bytes (parseBigCacheHeader c4Bytes) 0).file_path)
          (loadEntry c4Bytes (parseBigCacheHeader c4Bytes) 0).source_offset
          false).2.1 =
        some ((parseBigCacheHeader c4Bytes).data_offset + 0 * PAGE_SIZE)) :=
  ⟨by decide, by decide, by decide,
    c4_lookup_determinism c4Bytes 12288 0 (by decide) (by decide) (by decide)
      (by decide)⟩

/-! ### Claim C2 -/

/-- C2 (exhibiting the code bug): `bundleA` loads and verifies cleanly;
`corruptA` differs from it in the single data-region byte at offset 4096
(not one of the 4 magic bytes), its stored checksum no longer matches a
CRC32 recomputation (here over the code's own region, bytes 8..EOF with
the checksum field zeroed), and yet `bigcache_verify` still returns
success on it — the source's `verify` has the CRC32 recomputation left
as a `TODO`. -/
theorem c2_verify_accepts_corruption :
    bigcache_verify (bigcache_load bundleA.bytes bundleA.header.total_size).toOption = 0 ∧
    seg corruptA 4096 1 ≠ seg bundleA.bytes 4096 1 ∧
    bundleA.header.checksum ≠
      bigcache_crc32 (patchU32 corruptA 48 0 / 256 ^ 8)
        (bundleA.header.total_size - 8) ∧
    bigcache_verify (bigcache_load corruptA bundleA.header.total_size).toOption = 0 := by
  decide

/-! ### Counterexamples to claims C1, C3, C5 -/

/-- C1 counterexample: in `bundleB`, page record 0 reads short (its
origin `"s"` opens but holds one byte `0x01`), and the built page is all
zeros — the byte that was read is *not* preserved — so it differs from
the claim's zero-padded page `specPageData`, which keeps that byte. -/
theorem c1_counterexample :
    (packer_build packerB fsB).isSome = true ∧
    (fsB (packerB.entries.getD 0 default).file_path).isSome = true ∧
    srcReadFull fsB (packerB.entries.getD 0 default) = false ∧
    bundleB.header.data_offset = 4096 ∧
    seg bundleB.bytes (bundleB.header.data_offset + PAGE_SIZE * 0) PAGE_SIZE = 0 ∧
    specPageData fsB (packerB.entries.getD 0 default) = 1 ∧
    seg bundleB.bytes (bundleB.header.data_offset + PAGE_SIZE * 0) PAGE_SIZE ≠
      specPageData fsB (packerB.entries.getD 0 default) := by
  decide

/-- C3 counterexample: in `bundleA`, the stored checksum does not equal
the CRC32 of the bundle bytes from the first byte after the CRC field
(offset 52) through end-of-file. -/
theorem c3_counterexample :
    (packer_build packerA fsA).isSome = true ∧
    bundleA.header.checksum ≠
      bigcache_crc32 (bundleA.bytes / 256 ^ 52)
        (bundleA.header.total_size - 52) := by
  decide

/-- C5 counterexample: in `bundleA` (one page record), the file table
begins 20 bytes after the index region — not `26 · num_pages` bytes. -/
theorem c5_counterexample :
    (packer_build packerA fsA).isSome = true ∧
    bundleA.header.num_pages = 1 ∧
    bundleA.header.index_offset = 88 ∧
    bundleA.header.file_table_offset = 108 ∧
    bundleA.header.file_table_offset ≠
      bundleA.header.index_offset + 26 * bundleA.header.num_pages := by
  decide

theorem c6_add_page_idempotent_witness :
    exPathF.length ≤ 511 ∧
    pageAlign 100 = pageAlign 4095 ∧
    page_exists packer_create exPathF 4095 = false ∧
    ((packer_add_page (packer_add_page packer_create exPathF 4095 3).2
        exPathF 100 9).1 = 0 ∧
      (packer_add_page (packer_add_page packer_create exPathF 4095 3).2
        exPathF 100 9).2 = (packer_add_page packer_create exPathF 4095 3).2 ∧
      (packer_add_page (packer_add_page packer_create exPathF 4095 3).2
          exPathF 100 9).2.entries.filter
          (fun e => e.offset == pageAlign 4095 && e.file_path == exPathF) =
        [⟨exPathF, pageAlign 4095, PAGE_SIZE, 3⟩]) :=
  ⟨by decide, by decide, by decide,
    c6_add_page_idempotent packer_create exPathF 4095 100 3 9
      (by decide) (by decide) (by decide)⟩

end BigCache
